import Mathlib

/-!
Shallow embedding of the token-based authentication and revocation subsystem
of the bookly repository (src/src/auth/utils.py, src/src/auth/dependencies.py,
src/src/auth/routers.py, src/src/db/redis.py, src/src/books/config.py).

Modelling conventions:
- Python dicts of string claims become association lists (StrDict).
- The JWT payload built by create_access_token always has exactly the keys
  users, exp, jti, refresh; it is modelled by the structure Payload, and the
  generic dict access payload[k] by Payload.get (which returns none exactly
  for the keys a payload dict does not hold, i.e. Python KeyError).
- jwt.encode / jwt.decode (PyJWT) are modelled symbolically: a well-formed
  token records its header algorithm, payload and signature; the signature is
  a concrete function of key, algorithm and payload, and jwt.decode checks
  the algorithm allow-list, the signature, and the exp claim (PyJWT validates
  exp by default and raises ExpiredSignatureError), in that order, raising
  (Except.error) on failure.  A non-JWT input string is Token.malformed.
- datetime.now() becomes an explicit integer timestamp parameter (seconds);
  timedelta(days=d) is d * 86400 seconds.
- The Redis blocklist (SET name jti value "" ex JTI_EXPIRY / GET) becomes an
  association list from jti to the absolute expiry time of the entry; a GET
  at time t sees the entry iff t is before that expiry.
- uuid.uuid4() (the fresh jti) and the database / bcrypt collaborators
  (get_user_by_email, verify_password) are oracle parameters.
-/

namespace Bookly

/-- Python dict with string keys and string values (the subject claims). -/
abbrev StrDict := List (String × String)

/-- src/books/config.py: the JWT-relevant settings, read once at start. -/
structure Config where
  JWT_SECRET : String
  JWT_ALGORITHM : String
deriving DecidableEq, Repr

/-- The JWT payload dict built by create_access_token: it always has exactly
the keys users, exp, jti and refresh. -/
structure Payload where
  users : StrDict
  exp : Int
  jti : String
  refresh : Bool
deriving DecidableEq, Repr

/-- A Python value stored in a payload dict. -/
inductive JVal where
  | s (v : String)
  | i (v : Int)
  | b (v : Bool)
  | d (v : StrDict)
deriving DecidableEq, Repr

/-- Dict access payload[k]: some value when the key is present, none when the
access would raise KeyError.  A payload dict holds exactly the four keys
written by create_access_token. -/
def Payload.get (p : Payload) (k : String) : Option JVal :=
  if k = "users" then some (JVal.d p.users)
  else if k = "exp" then some (JVal.i p.exp)
  else if k = "jti" then some (JVal.s p.jti)
  else if k = "refresh" then some (JVal.b p.refresh)
  else none

/-- A bearer token string: either a structurally well-formed JWT (header
algorithm, payload, signature) or a malformed string. -/
inductive Token where
  | jwt (alg : String) (payload : Payload) (sig : String)
  | malformed (raw : String)
deriving DecidableEq, Repr

/-- Serialization of the subject-claims dict used inside the signature. -/
def dictStr (d : StrDict) : String :=
  List.foldr (fun kv acc => kv.1 ++ "=" ++ kv.2 ++ ";" ++ acc) "" d

/-- Symbolic MAC over the payload with the signing key and algorithm. -/
def signature (key alg : String) (p : Payload) : String :=
  key ++ "|" ++ alg ++ "|" ++ dictStr p.users ++ "|" ++ toString p.exp
      ++ "|" ++ p.jti ++ "|" ++ toString p.refresh

/-- The PyJWT exceptions raised by jwt.decode; all are subclasses of
jwt.PyJWTError. -/
inductive JwtError where
  | decodeError
  | invalidAlgorithm
  | invalidSignature
  | expiredSignature
deriving DecidableEq, Repr

/-- jwt.encode(payload, key, algorithm): sign the payload. -/
def jwtEncode (payload : Payload) (key : String) (alg : String) : Token :=
  Token.jwt alg payload (signature key alg payload)

/-- jwt.decode(jwt, key, algorithms): checks structure, the algorithm
allow-list, the signature, and the exp claim (expired iff exp <= now, the
PyJWT default with zero leeway); raises (Except.error) a PyJWTError subclass
on any failure. -/
def jwtDecode (tok : Token) (key : String) (algorithms : List String)
    (now : Int) : Except JwtError Payload :=
  match tok with
  | Token.malformed _ => Except.error JwtError.decodeError
  | Token.jwt alg p sig =>
    if algorithms.contains alg then
      if sig = signature key alg p then
        if p.exp ≤ now then Except.error JwtError.expiredSignature
        else Except.ok p
      else Except.error JwtError.invalidSignature
    else Except.error JwtError.invalidAlgorithm

/-- src/auth/utils.py: ACCESS_TOKEN_EXPIRY = 3600 (seconds). -/
def ACCESS_TOKEN_EXPIRY : Int := 3600

/-- src/auth/utils.py create_access_token(user_data, expiry=None,
refresh=False): payload with users, exp = now + (expiry or default), a fresh
jti, and the refresh flag, signed with the configured secret and algorithm.
The fresh uuid4 jti and the current time are explicit parameters. -/
def create_access_token (cfg : Config) (now : Int) (jti : String)
    (user_data : StrDict) (expiry : Option Int) (refresh : Bool) : Token :=
  let payload : Payload :=
    { users := user_data
      exp := now + Option.getD expiry ACCESS_TOKEN_EXPIRY
      jti := jti
      refresh := refresh }
  jwtEncode payload cfg.JWT_SECRET cfg.JWT_ALGORITHM

/-- src/auth/utils.py decode_token(token): jwt.decode under try/except
jwt.PyJWTError; returns the payload, or None on any PyJWTError. -/
def decode_token (cfg : Config) (now : Int) (token : Token) : Option Payload :=
  match jwtDecode token cfg.JWT_SECRET [cfg.JWT_ALGORITHM] now with
  | Except.ok token_data => some token_data
  | Except.error _ => none

/-- src/db/redis.py: JTI_EXPIRY = 3600 (seconds), the blocklist entry TTL. -/
def JTI_EXPIRY : Int := 3600

/-- The Redis blocklist state: jti mapped to the absolute time at which the
entry expires. -/
abbrev Blocklist := List (String × Int)

/-- src/db/redis.py add_jti_to_blocklist(jti): SET name=jti value="" with
ex=JTI_EXPIRY, so the entry lives until now + JTI_EXPIRY. -/
def add_jti_to_blocklist (now : Int) (bl : Blocklist) (jti : String) :
    Blocklist :=
  (jti, now + JTI_EXPIRY) :: bl

/-- src/db/redis.py token_in_blocklist(jti): GET jti, true iff the key exists
and its TTL has not elapsed. -/
def token_in_blocklist (now : Int) (bl : Blocklist) (jti : String) : Bool :=
  match bl.find? (fun e => e.1 == jti) with
  | some e => decide (now < e.2)
  | none => false

/-- A FastAPI HTTPException detail: either a plain message or the
error/resolution dict used for the revocation rejection. -/
inductive Detail where
  | msg (s : String)
  | errRes (error resolution : String)
deriving DecidableEq, Repr

/-- A FastAPI HTTPException: status code and detail. -/
structure HTTPException where
  status_code : Nat
  detail : Detail
deriving DecidableEq, Repr

/-- src/auth/dependencies.py TokenBearer.__call__: decode the bearer token
(reject 403 "Invalid or expired token" when decode_token returns None), then
reject 403 with the revocation dict when the jti is in the blocklist, then
apply the subclass hook verify_token_data (some exc means it raised), and
finally return the decoded payload.  The source decodes the token twice
(token_data and token_valid); decode_token is pure, so one decode is
equivalent. -/
def tokenBearerCall (verify_token_data : Payload → Option HTTPException)
    (cfg : Config) (now : Int) (bl : Blocklist) (token : Token) :
    Except HTTPException Payload :=
  match decode_token cfg now token with
  | none =>
      Except.error { status_code := 403
                     detail := Detail.msg "Invalid or expired token" }
  | some token_data =>
      if token_in_blocklist now bl token_data.jti then
        Except.error
          { status_code := 403
            detail := Detail.errRes "This token is invalid or has been revoked"
                "Please get new token" }
      else
        match verify_token_data token_data with
        | some e => Except.error e
        | none => Except.ok token_data

/-- src/auth/dependencies.py AccessTokenBearer.verify_token_data: raise 403
"Please provide an access token" when the (always non-empty) payload has
refresh = True. -/
def AccessTokenBearer.verify_token_data (token_data : Payload) :
    Option HTTPException :=
  if token_data.refresh then
    some { status_code := 403
           detail := Detail.msg "Please provide an access token" }
  else none

/-- src/auth/dependencies.py RefreshTokenBearer.verify_token_data: raise 403
"Please provide a refresh token" when the payload has refresh = False. -/
def RefreshTokenBearer.verify_token_data (token_data : Payload) :
    Option HTTPException :=
  if token_data.refresh then none
  else
    some { status_code := 403
           detail := Detail.msg "Please provide a refresh token" }

/-- src/db/models.py User, restricted to the fields the auth subsystem
reads. -/
structure User where
  uid : String
  email : String
  role : String
  password_hash : String
deriving DecidableEq, Repr

/-- src/auth/dependencies.py RoleChecker.__call__: True when the current
user role is in the allowed list, else 403 "You are not allowed to perform
this action." -/
def RoleChecker.call (allowed_roles : List String) (current_user : User) :
    Except HTTPException Bool :=
  if allowed_roles.contains current_user.role then Except.ok true
  else
    Except.error
      { status_code := 403
        detail := Detail.msg "You are not allowed to perform this action." }

/-- src/auth/routers.py: REFRESH_TOKEN_EXPIRY = 2 (days). -/
def REFRESH_TOKEN_EXPIRY : Int := 2

/-- timedelta(days = d) measured in seconds. -/
def timedeltaDays (d : Int) : Int := d * 86400

/-- src/auth/schemas.py UserLoginModel. -/
structure UserLoginModel where
  email : String
  password : String
deriving DecidableEq, Repr

/-- The JSONResponse body of a successful login. -/
structure LoginResponse where
  message : String
  access_token : Token
  refresh_token : Token
  user_email : String
  user_uid : String
deriving DecidableEq, Repr

/-- src/auth/routers.py login_user_account: look the user up by email; when
found and the password verifies, issue an access token (claims email,
user_uid, role; default expiry; refresh = False) and a refresh token (claims
email, user_uid; expiry = timedelta(days = REFRESH_TOKEN_EXPIRY);
refresh = True) and return them with the public identity; otherwise fall
through to the single 403 "Invalid Email Or Password".  The database lookup,
bcrypt verification, the clock and the two fresh jtis are parameters. -/
def login_user_account (cfg : Config) (now : Int) (jti1 jti2 : String)
    (get_user_by_email : String → Option User)
    (verify_password : String → String → Bool)
    (login_data : UserLoginModel) : Except HTTPException LoginResponse :=
  let email := login_data.email
  let password := login_data.password
  match get_user_by_email email with
  | some user =>
    if verify_password password user.password_hash then
      Except.ok
        { message := "Login successful"
          access_token := create_access_token cfg now jti1
            [("email", user.email), ("user_uid", user.uid),
             ("role", user.role)] none false
          refresh_token := create_access_token cfg now jti2
            [("email", user.email), ("user_uid", user.uid)]
            (some (timedeltaDays REFRESH_TOKEN_EXPIRY)) true
          user_email := user.email
          user_uid := user.uid }
    else
      Except.error { status_code := 403
                     detail := Detail.msg "Invalid Email Or Password" }
  | none =>
      Except.error { status_code := 403
                     detail := Detail.msg "Invalid Email Or Password" }

/-- Outcome of the refresh endpoint: a JSONResponse with the new access
token, an HTTPException, or an unhandled Python KeyError escaping the
handler. -/
inductive RefreshResult where
  | ok (access_token : Token)
  | httpError (e : HTTPException)
  | unhandledKeyError (key : String)
deriving DecidableEq, Repr

/-- src/auth/routers.py get_new_access_token: token_details is the payload
returned by RefreshTokenBearer.  Reads token_details["exp"] (always
present), re-checks expiry against the clock, and then evaluates
token_details["user"] as the user_data for create_access_token; a missing
key raises KeyError.  On a failed expiry check, 400 "Invalid Or expired
token". -/
def get_new_access_token (cfg : Config) (now : Int) (jti : String)
    (token_details : Payload) : RefreshResult :=
  let expiry_timestamp := token_details.exp
  if now < expiry_timestamp then
    match Payload.get token_details "user" with
    | some (JVal.d user_data) =>
        RefreshResult.ok (create_access_token cfg now jti user_data none false)
    | some _ => RefreshResult.unhandledKeyError "user"
    | none => RefreshResult.unhandledKeyError "user"
  else
    RefreshResult.httpError
      { status_code := 400, detail := Detail.msg "Invalid Or expired token" }

/-- The JSONResponse of logout. -/
structure LogoutResponse where
  message : String
  status_code : Nat
deriving DecidableEq, Repr

/-- src/auth/routers.py revoke_token (the /logout handler): add the jti of
the AccessTokenBearer-validated payload to the blocklist and confirm. -/
def revoke_token (now : Int) (bl : Blocklist) (token_details : Payload) :
    Blocklist × LogoutResponse :=
  let jti := token_details.jti
  (add_jti_to_blocklist now bl jti,
   { message := "Logged Out Successfully", status_code := 200 })

/-- Shared helper: decoding a token produced by create_access_token with the
same configuration, at any time before its expiry, yields exactly the payload
that was signed. -/
theorem decode_token_create_access_token (cfg : Config) (t0 t1 : Int)
    (jti : String) (user_data : StrDict) (expiry : Option Int)
    (refresh : Bool)
    (h : t1 < t0 + Option.getD expiry ACCESS_TOKEN_EXPIRY) :
    decode_token cfg t1 (create_access_token cfg t0 jti user_data expiry refresh)
      = some { users := user_data
               exp := t0 + Option.getD expiry ACCESS_TOKEN_EXPIRY
               jti := jti
               refresh := refresh } := by
  have hne : ¬ (t0 + Option.getD expiry ACCESS_TOKEN_EXPIRY ≤ t1) := by omega
  unfold decode_token create_access_token jwtEncode jwtDecode
  simp [hne]

/-- C7: issue followed by parse, with the same signing secret and algorithm,
before expiry and without tampering, recovers a payload whose subject claims
equal the input claims and whose refresh flag equals the input flag. -/
theorem C7_issue_parse_roundtrip (cfg : Config) (t0 t1 : Int) (jti : String)
    (user_data : StrDict) (expiry : Option Int) (refresh : Bool)
    (h : t1 < t0 + Option.getD expiry ACCESS_TOKEN_EXPIRY) :
    ∃ p : Payload,
      decode_token cfg t1
          (create_access_token cfg t0 jti user_data expiry refresh) = some p
        ∧ p.users = user_data ∧ p.refresh = refresh := by
  exact ⟨_, decode_token_create_access_token cfg t0 t1 jti user_data expiry
      refresh h, rfl, rfl⟩

/-- C7 witness: concrete round trip. -/
theorem C7_issue_parse_roundtrip_witness :
    ∃ p : Payload,
      decode_token ⟨"secret", "HS256"⟩ 10
          (create_access_token ⟨"secret", "HS256"⟩ 0 "jti0"
            [("email", "a@b.c")] none false) = some p
        ∧ p.users = [("email", "a@b.c")] ∧ p.refresh = false :=
  C7_issue_parse_roundtrip ⟨"secret", "HS256"⟩ 0 10 "jti0"
    [("email", "a@b.c")] none false (by decide)

/-- C8: decode_token is total on tokens: whenever the underlying jwt.decode
raises any PyJWTError, decode_token returns the distinguished invalid result
None instead of propagating the error, and whenever jwt.decode succeeds,
decode_token returns its claims. -/
theorem C8_decode_never_throws (cfg : Config) (now : Int) (token : Token) :
    (∀ e : JwtError,
        jwtDecode token cfg.JWT_SECRET [cfg.JWT_ALGORITHM] now = Except.error e →
          decode_token cfg now token = none)
    ∧ (∀ p : Payload,
        jwtDecode token cfg.JWT_SECRET [cfg.JWT_ALGORITHM] now = Except.ok p →
          decode_token cfg now token = some p) := by
  constructor
  · intro e he
    unfold decode_token
    rw [he]
  · intro p hp
    unfold decode_token
    rw [hp]

/-- C8 witness: a malformed token decodes to None. -/
theorem C8_decode_never_throws_witness :
    decode_token ⟨"secret", "HS256"⟩ 0 (Token.malformed "garbage") = none :=
  (C8_decode_never_throws ⟨"secret", "HS256"⟩ 0
    (Token.malformed "garbage")).1 JwtError.decodeError rfl

/-- C10: a well-formed token whose embedded expiry lies strictly in the past
is already rejected at the parse step (decode_token returns None), and the
Token Authenticator therefore rejects it with 403 "Invalid or expired token"
whatever the revocation store holds and whatever type discriminator is in
force. -/
theorem C10_expired_rejected_at_parse (cfg : Config) (now : Int)
    (alg sig : String) (p : Payload) (hPast : p.exp < now) :
    decode_token cfg now (Token.jwt alg p sig) = none
    ∧ ∀ (verify_hook : Payload → Option HTTPException) (bl : Blocklist),
        tokenBearerCall verify_hook cfg now bl (Token.jwt alg p sig)
          = Except.error { status_code := 403
                           detail := Detail.msg "Invalid or expired token" } := by
  have hdec : decode_token cfg now (Token.jwt alg p sig) = none := by
    have hle : p.exp ≤ now := le_of_lt hPast
    unfold decode_token jwtDecode
    by_cases halg : alg = cfg.JWT_ALGORITHM
    · subst halg
      by_cases hsig : sig = signature cfg.JWT_SECRET cfg.JWT_ALGORITHM p
      · simp [hsig, hle]
      · simp [hsig]
    · simp [halg]
  refine ⟨hdec, fun verify_hook bl => ?_⟩
  unfold tokenBearerCall
  rw [hdec]

/-- C10 witness: a token expired one second ago is rejected by the access
bearer check with the invalid-token error even with an empty blocklist. -/
theorem C10_expired_rejected_at_parse_witness :
    decode_token ⟨"secret", "HS256"⟩ 100
        (Token.jwt "HS256" ⟨[], 99, "j", false⟩ "sig") = none
    ∧ tokenBearerCall AccessTokenBearer.verify_token_data ⟨"secret", "HS256"⟩
        100 [] (Token.jwt "HS256" ⟨[], 99, "j", false⟩ "sig")
        = Except.error { status_code := 403
                         detail := Detail.msg "Invalid or expired token" } := by
  have h := C10_expired_rejected_at_parse ⟨"secret", "HS256"⟩ 100 "HS256"
    "sig" ⟨[], 99, "j", false⟩ (by decide)
  exact ⟨h.1, h.2 AccessTokenBearer.verify_token_data []⟩

/-- C1: the refresh handler evaluates token_details["user"], but every
payload issued by create_access_token stores the subject claims under the
key "users"; for every refresh-token payload whose expiry is still in the
future the handler therefore raises an unhandled KeyError and never returns
a new access token. -/
theorem C1_refresh_raises_keyerror (cfg : Config) (now : Int) (jti : String)
    (token_details : Payload) (h : now < token_details.exp) :
    get_new_access_token cfg now jti token_details
      = RefreshResult.unhandledKeyError "user" := by
  unfold get_new_access_token Payload.get
  simp [h]

/-- C1 witness: concrete refresh-token payload with future expiry. -/
theorem C1_refresh_raises_keyerror_witness :
    get_new_access_token ⟨"secret", "HS256"⟩ 0 "jti1"
        ⟨[("email", "a@b.c")], 100, "j0", true⟩
      = RefreshResult.unhandledKeyError "user" :=
  C1_refresh_raises_keyerror ⟨"secret", "HS256"⟩ 0 "jti1"
    ⟨[("email", "a@b.c")], 100, "j0", true⟩ (by decide)

/-- Shared helper: a well-formed token signed with the configured secret and
algorithm and not yet expired decodes to its payload. -/
theorem decode_token_valid (cfg : Config) (now : Int) (alg sig : String)
    (p : Payload)
    (halg : alg = cfg.JWT_ALGORITHM)
    (hsig : sig = signature cfg.JWT_SECRET alg p)
    (hexp : now < p.exp) :
    decode_token cfg now (Token.jwt alg p sig) = some p := by
  subst hsig
  subst halg
  have hne : ¬ (p.exp ≤ now) := by omega
  unfold decode_token jwtDecode
  simp [hne]

/-- Shared helper: immediately after add_jti_to_blocklist and for as long as
the entry TTL has not elapsed, the jti is reported as blocked. -/
theorem token_in_blocklist_after_add (t1 t2 : Int) (bl : Blocklist)
    (jti : String) (h : t2 < t1 + JTI_EXPIRY) :
    token_in_blocklist t2 (add_jti_to_blocklist t1 bl jti) jti = true := by
  unfold token_in_blocklist add_jti_to_blocklist
  simp [List.find?, h]

/-- C2: the claim requires the revocation-store entry lifetime to be at least
every revocable token lifetime; in the code JTI_EXPIRY is 3600 seconds while
refresh tokens live timedelta(days = 2) = 172800 seconds, and consequently a
refresh token revoked at t1 is accepted again by the RefreshTokenBearer at
any t2 past the blocklist TTL but before the token expiry. -/
theorem C2_revoked_refresh_outlives_blocklist_entry (cfg : Config)
    (t0 t1 t2 : Int) (jti : String) (user_data : StrDict) (bl : Blocklist)
    (hTTL : t1 + JTI_EXPIRY ≤ t2)
    (hAlive : t2 < t0 + timedeltaDays REFRESH_TOKEN_EXPIRY) :
    JTI_EXPIRY < timedeltaDays REFRESH_TOKEN_EXPIRY
    ∧ tokenBearerCall RefreshTokenBearer.verify_token_data cfg t2
        (add_jti_to_blocklist t1 bl jti)
        (create_access_token cfg t0 jti user_data
          (some (timedeltaDays REFRESH_TOKEN_EXPIRY)) true)
      = Except.ok { users := user_data
                    exp := t0 + timedeltaDays REFRESH_TOKEN_EXPIRY
                    jti := jti
                    refresh := true } := by
  refine ⟨by decide, ?_⟩
  have hdec := decode_token_create_access_token cfg t0 t2 jti user_data
    (some (timedeltaDays REFRESH_TOKEN_EXPIRY)) true (by simpa using hAlive)
  simp only [Option.getD] at hdec
  have hbl : token_in_blocklist t2 (add_jti_to_blocklist t1 bl jti) jti
      = false := by
    unfold token_in_blocklist add_jti_to_blocklist
    simp [List.find?]
    omega
  unfold tokenBearerCall
  rw [hdec]
  simp [hbl, RefreshTokenBearer.verify_token_data]

/-- C2 witness: with the blocklist entry created at time 0, at time 3600 the
revoked refresh token (expiring at 172800) is accepted again. -/
theorem C2_revoked_refresh_outlives_blocklist_entry_witness :
    JTI_EXPIRY < timedeltaDays REFRESH_TOKEN_EXPIRY
    ∧ tokenBearerCall RefreshTokenBearer.verify_token_data ⟨"secret", "HS256"⟩
        3600 (add_jti_to_blocklist 0 [] "j")
        (create_access_token ⟨"secret", "HS256"⟩ 0 "j" []
          (some (timedeltaDays REFRESH_TOKEN_EXPIRY)) true)
      = Except.ok { users := []
                    exp := 0 + timedeltaDays REFRESH_TOKEN_EXPIRY
                    jti := "j"
                    refresh := true } :=
  C2_revoked_refresh_outlives_blocklist_entry ⟨"secret", "HS256"⟩ 0 0 3600
    "j" [] [] (by decide) (by decide)

/-- C3: an access token accepted by the logout bearer gets its jti recorded
in the revocation store, and while the revocation entry lives every bearer
check on the same token rejects 403 via the revocation branch, even at a
time at which the token itself has not yet expired. -/
theorem C3_logout_revokes_access_token (cfg : Config) (now t2 : Int)
    (bl : Blocklist) (alg sig : String) (p : Payload)
    (hAccepted : tokenBearerCall AccessTokenBearer.verify_token_data cfg now
        bl (Token.jwt alg p sig) = Except.ok p)
    (halg : alg = cfg.JWT_ALGORITHM)
    (hsig : sig = signature cfg.JWT_SECRET alg p)
    (hLive : t2 < now + JTI_EXPIRY)
    (hNotExpired : t2 < p.exp) :
    (revoke_token now bl p).1 = add_jti_to_blocklist now bl p.jti
    ∧ ∀ verify_hook : Payload → Option HTTPException,
        tokenBearerCall verify_hook cfg t2 ((revoke_token now bl p).1)
            (Token.jwt alg p sig)
          = Except.error
              { status_code := 403
                detail := Detail.errRes
                  "This token is invalid or has been revoked"
                  "Please get new token" } := by
  refine ⟨rfl, fun verify_hook => ?_⟩
  have hdec := decode_token_valid cfg t2 alg sig p halg hsig hNotExpired
  have hbl := token_in_blocklist_after_add now t2 bl p.jti hLive
  unfold tokenBearerCall
  rw [hdec]
  simp [revoke_token, hbl]

/-- C3 witness: concrete logout followed by a rejected access check. -/
theorem C3_logout_revokes_access_token_witness :
    tokenBearerCall AccessTokenBearer.verify_token_data ⟨"secret", "HS256"⟩ 0
        [] (Token.jwt "HS256" ⟨[], 100, "j", false⟩
          (signature "secret" "HS256" ⟨[], 100, "j", false⟩))
      = Except.ok ⟨[], 100, "j", false⟩
    ∧ tokenBearerCall AccessTokenBearer.verify_token_data ⟨"secret", "HS256"⟩
        10 ((revoke_token 0 [] ⟨[], 100, "j", false⟩).1)
        (Token.jwt "HS256" ⟨[], 100, "j", false⟩
          (signature "secret" "HS256" ⟨[], 100, "j", false⟩))
      = Except.error
          { status_code := 403
            detail := Detail.errRes "This token is invalid or has been revoked"
              "Please get new token" } := by
  have hAccepted :
      tokenBearerCall AccessTokenBearer.verify_token_data ⟨"secret", "HS256"⟩
        0 [] (Token.jwt "HS256" ⟨[], 100, "j", false⟩
          (signature "secret" "HS256" ⟨[], 100, "j", false⟩))
      = Except.ok ⟨[], 100, "j", false⟩ := by rfl
  exact ⟨hAccepted,
    (C3_logout_revokes_access_token ⟨"secret", "HS256"⟩ 0 10 [] "HS256"
      (signature "secret" "HS256" ⟨[], 100, "j", false⟩) ⟨[], 100, "j", false⟩
      hAccepted rfl rfl (by decide) (by decide)).2
      AccessTokenBearer.verify_token_data⟩

/-- C4: on a successfully parsed, non-revoked token the AccessTokenBearer
rejects exactly when the refresh flag is true, with 403 "Please provide an
access token", and the RefreshTokenBearer rejects exactly when the flag is
false, with 403 "Please provide a refresh token"; both run the same shared
pipeline tokenBearerCall and differ only in the verify hook. -/
theorem C4_access_refresh_discriminator (cfg : Config) (now : Int)
    (bl : Blocklist) (alg sig : String) (p : Payload)
    (halg : alg = cfg.JWT_ALGORITHM)
    (hsig : sig = signature cfg.JWT_SECRET alg p)
    (hexp : now < p.exp)
    (hnb : token_in_blocklist now bl p.jti = false) :
    tokenBearerCall AccessTokenBearer.verify_token_data cfg now bl
        (Token.jwt alg p sig)
      = (if p.refresh then
           Except.error { status_code := 403
                          detail := Detail.msg "Please provide an access token" }
         else Except.ok p)
    ∧ tokenBearerCall RefreshTokenBearer.verify_token_data cfg now bl
        (Token.jwt alg p sig)
      = (if p.refresh then Except.ok p
         else
           Except.error { status_code := 403
                          detail := Detail.msg "Please provide a refresh token" }) := by
  have hdec := decode_token_valid cfg now alg sig p halg hsig hexp
  constructor <;> unfold tokenBearerCall <;> rw [hdec] <;>
    by_cases hr : p.refresh <;>
      simp [hnb, hr, AccessTokenBearer.verify_token_data,
        RefreshTokenBearer.verify_token_data]

/-- C4 witness: a non-refresh token passes the access check and is rejected
by the refresh check with the stated message. -/
theorem C4_access_refresh_discriminator_witness :
    tokenBearerCall AccessTokenBearer.verify_token_data ⟨"secret", "HS256"⟩ 0
        [] (Token.jwt "HS256" ⟨[], 100, "j", false⟩
          (signature "secret" "HS256" ⟨[], 100, "j", false⟩))
      = Except.ok ⟨[], 100, "j", false⟩
    ∧ tokenBearerCall RefreshTokenBearer.verify_token_data ⟨"secret", "HS256"⟩
        0 [] (Token.jwt "HS256" ⟨[], 100, "j", false⟩
          (signature "secret" "HS256" ⟨[], 100, "j", false⟩))
      = Except.error { status_code := 403
                       detail := Detail.msg "Please provide a refresh token" } := by
  have h := C4_access_refresh_discriminator ⟨"secret", "HS256"⟩ 0 [] "HS256"
    (signature "secret" "HS256" ⟨[], 100, "j", false⟩) ⟨[], 100, "j", false⟩
    rfl rfl (by decide) rfl
  simpa using h

/-- C5: a login whose email lookup finds no user and a login whose found
user fails password verification produce one and the same rejection, 403
with detail "Invalid Email Or Password". -/
theorem C5_login_failures_indistinguishable (cfg : Config) (now : Int)
    (jti1 jti2 : String) (get_user_by_email : String → Option User)
    (verify_password : String → String → Bool) (login_data : UserLoginModel)
    (hFail : get_user_by_email login_data.email = none
      ∨ ∃ user : User, get_user_by_email login_data.email = some user
          ∧ verify_password login_data.password user.password_hash = false) :
    login_user_account cfg now jti1 jti2 get_user_by_email verify_password
        login_data
      = Except.error { status_code := 403
                       detail := Detail.msg "Invalid Email Or Password" } := by
  unfold login_user_account
  rcases hFail with h | ⟨user, hu, hv⟩
  · simp [h]
  · simp [hu, hv]

/-- C5 witness: unknown email and wrong password hit the same response. -/
theorem C5_login_failures_indistinguishable_witness :
    login_user_account ⟨"secret", "HS256"⟩ 0 "j1" "j2" (fun _ => none)
        (fun _ _ => true) ⟨"a@b.c", "pw"⟩
      = Except.error { status_code := 403
                       detail := Detail.msg "Invalid Email Or Password" }
    ∧ login_user_account ⟨"secret", "HS256"⟩ 0 "j1" "j2"
        (fun _ => some ⟨"u1", "a@b.c", "user", "h"⟩) (fun _ _ => false)
        ⟨"a@b.c", "pw"⟩
      = Except.error { status_code := 403
                       detail := Detail.msg "Invalid Email Or Password" } :=
  ⟨C5_login_failures_indistinguishable ⟨"secret", "HS256"⟩ 0 "j1" "j2"
      (fun _ => none) (fun _ _ => true) ⟨"a@b.c", "pw"⟩ (Or.inl rfl),
   C5_login_failures_indistinguishable ⟨"secret", "HS256"⟩ 0 "j1" "j2"
      (fun _ => some ⟨"u1", "a@b.c", "user", "h"⟩) (fun _ _ => false)
      ⟨"a@b.c", "pw"⟩
      (Or.inr ⟨⟨"u1", "a@b.c", "user", "h"⟩, rfl, rfl⟩)⟩

/-- C6: a successful login returns exactly the message, the public identity
(email and uid), an access token carrying claims email, user_uid and role
with refresh = false and the default 3600-second ttl, and a refresh token
carrying claims email and user_uid with refresh = true and a 2-day ttl. -/
theorem C6_login_success_issues_two_tokens (cfg : Config) (now : Int)
    (jti1 jti2 : String) (get_user_by_email : String → Option User)
    (verify_password : String → String → Bool) (login_data : UserLoginModel)
    (user : User)
    (hFound : get_user_by_email login_data.email = some user)
    (hValid : verify_password login_data.password user.password_hash = true) :
    ∃ resp : LoginResponse,
      login_user_account cfg now jti1 jti2 get_user_by_email verify_password
          login_data = Except.ok resp
      ∧ decode_token cfg now resp.access_token
          = some { users := [("email", user.email), ("user_uid", user.uid),
                             ("role", user.role)]
                   exp := now + ACCESS_TOKEN_EXPIRY
                   jti := jti1
                   refresh := false }
      ∧ decode_token cfg now resp.refresh_token
          = some { users := [("email", user.email), ("user_uid", user.uid)]
                   exp := now + timedeltaDays REFRESH_TOKEN_EXPIRY
                   jti := jti2
                   refresh := true }
      ∧ resp.message = "Login successful"
      ∧ resp.user_email = user.email
      ∧ resp.user_uid = user.uid := by
  have hacc := decode_token_create_access_token cfg now now jti1
    [("email", user.email), ("user_uid", user.uid), ("role", user.role)]
    none false (by simp [ACCESS_TOKEN_EXPIRY])
  have href := decode_token_create_access_token cfg now now jti2
    [("email", user.email), ("user_uid", user.uid)]
    (some (timedeltaDays REFRESH_TOKEN_EXPIRY)) true
    (by simp [timedeltaDays, REFRESH_TOKEN_EXPIRY])
  unfold login_user_account
  simp only [hFound, hValid, if_true]
  exact ⟨_, rfl, by simpa using hacc, by simpa using href, rfl, rfl, rfl⟩

/-- C6 witness: concrete successful login. -/
theorem C6_login_success_issues_two_tokens_witness :
    ∃ resp : LoginResponse,
      login_user_account ⟨"secret", "HS256"⟩ 0 "j1" "j2"
          (fun _ => some ⟨"u1", "a@b.c", "user", "h"⟩) (fun _ _ => true)
          ⟨"a@b.c", "pw"⟩ = Except.ok resp
      ∧ decode_token ⟨"secret", "HS256"⟩ 0 resp.access_token
          = some { users := [("email", "a@b.c"), ("user_uid", "u1"),
                             ("role", "user")]
                   exp := 0 + ACCESS_TOKEN_EXPIRY
                   jti := "j1"
                   refresh := false }
      ∧ decode_token ⟨"secret", "HS256"⟩ 0 resp.refresh_token
          = some { users := [("email", "a@b.c"), ("user_uid", "u1")]
                   exp := 0 + timedeltaDays REFRESH_TOKEN_EXPIRY
                   jti := "j2"
                   refresh := true }
      ∧ resp.message = "Login successful"
      ∧ resp.user_email = "a@b.c"
      ∧ resp.user_uid = "u1" :=
  C6_login_success_issues_two_tokens ⟨"secret", "HS256"⟩ 0 "j1" "j2"
    (fun _ => some ⟨"u1", "a@b.c", "user", "h"⟩) (fun _ _ => true)
    ⟨"a@b.c", "pw"⟩ ⟨"u1", "a@b.c", "user", "h"⟩ rfl rfl

/-- C9: the role checker returns True exactly when the current user role is
a member of the allowed list, and otherwise rejects with 403 "You are not
allowed to perform this action." -/
theorem C9_role_authorizer (allowed_roles : List String)
    (current_user : User) :
    (current_user.role ∈ allowed_roles →
        RoleChecker.call allowed_roles current_user = Except.ok true)
    ∧ (current_user.role ∉ allowed_roles →
        RoleChecker.call allowed_roles current_user
          = Except.error
              { status_code := 403
                detail := Detail.msg
                  "You are not allowed to perform this action." }) := by
  constructor <;> intro h <;> simp [RoleChecker.call, h]

/-- C9 witness: role admin is allowed by the admin-or-user checker, an
unknown role is rejected. -/
theorem C9_role_authorizer_witness :
    "admin" ∈ ["admin", "user"]
    ∧ RoleChecker.call ["admin", "user"] ⟨"u1", "a@b.c", "admin", "h"⟩
        = Except.ok true
    ∧ "root" ∉ ["admin", "user"]
    ∧ RoleChecker.call ["admin", "user"] ⟨"u2", "d@e.f", "root", "h"⟩
        = Except.error
            { status_code := 403
              detail := Detail.msg
                "You are not allowed to perform this action." } := by
  refine ⟨by decide, ?_, by decide, ?_⟩
  · exact (C9_role_authorizer ["admin", "user"]
      ⟨"u1", "a@b.c", "admin", "h"⟩).1 (by decide)
  · exact (C9_role_authorizer ["admin", "user"]
      ⟨"u2", "d@e.f", "root", "h"⟩).2 (by decide)

end Bookly
